import Mathlib

/-!
Verification of the snake4 tick/rules engine (src/main.rs) against its
natural-language specification.

The logic of the binary itself (struct Game, Game::new, Game::handle_input,
Game::update, and the game-over branch of the main loop) is embedded
directly from src/main.rs.  The snake3 library it links against
(SnakeGame, SnakeDirection, advance, check_collisions,
check_entity_collision, generate_entity) is not part of this repository and its
sources, so those collaborators are modelled from the specification
component contracts (sections 4.2-4.4); each such definition carries a
doc comment saying so.

Floating-point times (f32 in the source) are modelled as exact rationals;
the u32 score is modelled as a natural number.
-/

namespace Snake4

/-- Constant from src/main.rs line 10: `BASE_UPDATE_INTERVAL: f32 = 0.5`. -/
def BASE_UPDATE_INTERVAL : ℚ := 1/2

/-- Constant from src/main.rs line 11: `MIN_MOVE_INTERVAL: f32 = 0.1`. -/
def MIN_MOVE_INTERVAL : ℚ := 1/10

/-- Modelled from the spec: a grid cell position `{x: int16, y: int16}`
(spec section 3); the snake3 `Position` type is not in src/. -/
structure Pos where
  x : Int
  y : Int
deriving DecidableEq

/-- Modelled from the spec: the four headings (spec section 3, Direction);
the snake3 `SnakeDirection` enum is not in src/. -/
inductive SnakeDirection where
  | up
  | down
  | left
  | right
deriving DecidableEq

/-- Modelled from the spec: translation of a position by one cell in a
direction (spec section 4.2, advance).  The scenarios of the spec fix Right as
x+1 and Left as x-1; the vertical sign convention is chosen as up = y-1,
down = y+1 (the drawing code maps y downward on screen). -/
def translate (p : Pos) (d : SnakeDirection) : Pos :=
  match d with
  | .up => ⟨p.x, p.y - 1⟩
  | .down => ⟨p.x, p.y + 1⟩
  | .left => ⟨p.x - 1, p.y⟩
  | .right => ⟨p.x + 1, p.y⟩

/-- Modelled from the spec: SnakeBody (spec section 3): ordered sequence of
positions, head first, plus current heading and the one-shot
pending-growth flag.  The snake3 snake type is not in src/. -/
structure Snake where
  body : List Pos
  direction : SnakeDirection
  pending_growth : Bool
deriving DecidableEq

/-- Head of the body (first element); a default is supplied for the empty
list, which never occurs for a live session (spec invariant: length >= 1). -/
def Snake.headPos (s : Snake) : Pos :=
  s.body.headD ⟨0, 0⟩

/-- Modelled from the spec: `set_direction(d)` overwrites the current
heading unconditionally, with no validation (spec section 4.2). -/
def Snake.set_direction (s : Snake) (d : SnakeDirection) : Snake :=
  { s with direction := d }

/-- Modelled from the spec: `advance()` computes the new head by translating
the current head one cell in the current direction and prepends it; if the
pending-growth flag is set it is cleared and the tail stays (net length +1),
otherwise the tail is dropped (spec section 4.2). -/
def Snake.advance (s : Snake) : Snake :=
  let h := translate s.headPos s.direction
  if s.pending_growth then
    { s with body := h :: s.body, pending_growth := false }
  else
    { s with body := h :: s.body.dropLast }

/-- Modelled from the spec: `grow()` sets the pending-growth flag, consumed
by the next `advance()` (spec section 4.2). -/
def Snake.grow (s : Snake) : Snake :=
  { s with pending_growth := true }

/-- Modelled from the spec: the snake3 game state holding the grid bounds,
the snake and the live entity collection.  The only entity kind is Apple
(spec section 3), so entities are represented by their positions. -/
structure SnakeGame where
  columns : Int
  rows : Int
  snake : Snake
  entities : List Pos
deriving DecidableEq

/-- Modelled from the spec: CollisionDetector (spec section 4.3): terminal
iff the x or y of the head lies outside [0, columns) x [0, rows), or the head
equals the position of any other body segment. -/
def SnakeGame.check_collisions (sg : SnakeGame) : Bool :=
  let h := sg.snake.headPos
  !(decide (0 ≤ h.x) && decide (h.x < sg.columns)
      && decide (0 ≤ h.y) && decide (h.y < sg.rows))
    || decide (h ∈ sg.snake.body.tail)

/-- Modelled from the spec: the consumption check (spec section 4.4): if the
head position equals a live entity position, that entity is removed and
returned (every entity is an Apple). -/
def SnakeGame.check_entity_collision (sg : SnakeGame) : Option Pos × SnakeGame :=
  let h := sg.snake.headPos
  if h ∈ sg.entities then
    (some h, { sg with entities := sg.entities.erase h })
  else
    (none, sg)

/-- Modelled from the spec: EntitySpawner (spec section 4.4): produce exactly
one new Apple at a cell chosen arbitrarily from the cell space of the grid; the
arbitrary choice is supplied as the `cell` argument. -/
def SnakeGame.generate_entity (sg : SnakeGame) (cell : Pos) : SnakeGame :=
  { sg with entities := sg.entities ++ [cell] }

/-- Modelled from the spec: the fresh SnakeBody at an initial
position/direction used at session start (spec section 4.5); the exact
initial cell is not fixed by the spec, the grid centre is used. -/
def initialSnake (columns rows : Int) : Snake :=
  { body := [⟨columns / 2, rows / 2⟩], direction := .right, pending_growth := false }

/-- Modelled from the spec: `SnakeGame::new(columns, rows, None, None)` as
called in src/main.rs line 31: grid bounds fixed, fresh snake, no entities. -/
def SnakeGame.new (columns rows : Int) : SnakeGame :=
  { columns := columns, rows := rows, snake := initialSnake columns rows, entities := [] }

/-- The `Game` struct of src/main.rs lines 14-25. -/
structure Game where
  snake_game : SnakeGame
  update_timer : ℚ
  last_move_time : ℚ
  score : Nat
  high_score : Nat
deriving DecidableEq

/-- `Game::new` (src/main.rs lines 29-37). -/
def Game.new (columns rows : Int) : Game :=
  { snake_game := SnakeGame.new columns rows
    update_timer := 0
    last_move_time := 0
    score := 0
    high_score := 0 }

/-- The per-tick keyboard state: whether each arrow key was newly pressed
this tick (`is_key_pressed` in src/main.rs lines 43-52). -/
structure InputState where
  right : Bool
  left : Bool
  down : Bool
  up : Bool
deriving DecidableEq

/-- True iff any directional key was newly pressed this tick. -/
def InputState.any (i : InputState) : Bool :=
  i.right || i.left || i.down || i.up

/-- `Game::handle_input` (src/main.rs lines 40-58).  The else-if chain
checks Right, Left, Down, Up in that order; note that the source forwards
`SnakeDirection::Up` for the Down key and `SnakeDirection::Down` for the
Up key (lines 49-54). -/
def Game.handle_input (g : Game) (inp : InputState) : Game × Bool :=
  if inp.right then
    ({ g with snake_game :=
        { g.snake_game with snake := g.snake_game.snake.set_direction .right } }, true)
  else if inp.left then
    ({ g with snake_game :=
        { g.snake_game with snake := g.snake_game.snake.set_direction .left } }, true)
  else if inp.down then
    ({ g with snake_game :=
        { g.snake_game with snake := g.snake_game.snake.set_direction .up } }, true)
  else if inp.up then
    ({ g with snake_game :=
        { g.snake_game with snake := g.snake_game.snake.set_direction .down } }, true)
  else
    (g, false)

/-- `Game::update` (src/main.rs lines 61-101).  `delta` is the frame time,
`t` the current wall-clock time (`get_time()`), `inp` the keyboard state
polled by `handle_input`, and `cell` the arbitrary cell the spawner would
choose if invoked this tick.  Returns the new state and the continue flag
(`false` = game over).  The downcast in the source of the hit entity to `Apple`
always succeeds because Apple is the only entity kind. -/
def Game.update (g : Game) (delta t : ℚ) (inp : InputState) (cell : Pos) : Game × Bool :=
  let g1 := { g with update_timer := g.update_timer + delta }
  let p := g1.handle_input inp
  let g2 := p.1
  let input_moved := p.2
  let should_move :=
    (input_moved && decide (t - g2.last_move_time ≥ MIN_MOVE_INTERVAL))
      || (!input_moved && decide (g2.update_timer ≥ BASE_UPDATE_INTERVAL))
  if should_move then
    let g3 := { g2 with snake_game := { g2.snake_game with snake := g2.snake_game.snake.advance } }
    if g3.snake_game.check_collisions then
      (g3, false)
    else
      let q := g3.snake_game.check_entity_collision
      let g4 :=
        match q.1 with
        | some _ =>
            { g3 with
                snake_game := { q.2 with snake := q.2.snake.grow },
                score := g3.score + 1 }
        | none => { g3 with snake_game := q.2 }
      let g5 :=
        if g4.snake_game.entities.isEmpty then
          { g4 with snake_game := g4.snake_game.generate_entity cell }
        else g4
      let g6 :=
        { g5 with
            last_move_time := t,
            update_timer := if input_moved then 0 else g5.update_timer - BASE_UPDATE_INTERVAL }
      (g6, true)
  else
    (g2, true)

/-- The high-score assignment executed on game over by the main loop
(src/main.rs line 152): `game.high_score = game.high_score.max(game.score)`. -/
def highScoreCommit (g : Game) : Game :=
  { g with high_score := Nat.max g.high_score g.score }

/-- One iteration of the state handling of the main loop (src/main.rs lines
150-154): run `update`; on game over, perform the high-score assignment and
then replace the whole game with `Game::new(columns, rows)` — exactly as the
source does, the freshly constructed game overwrites the game whose
high_score field was just updated. -/
def mainStep (columns rows : Int) (g : Game) (delta t : ℚ)
    (inp : InputState) (cell : Pos) : Game :=
  let r := g.update delta t inp cell
  if r.2 then
    r.1
  else
    let gOver := highScoreCommit r.1
    let _ := gOver
    Game.new columns rows

/-- The state after the timer accumulation and input handling of a tick
(src/main.rs lines 62-64), before the move decision. -/
def Game.afterInput (g : Game) (delta : ℚ) (inp : InputState) : Game :=
  ({ g with update_timer := g.update_timer + delta }.handle_input inp).1

/-- The snake-game state as it stands right after `advance` inside a moving
tick (src/main.rs line 71), on which the collision check runs. -/
def Game.advancedSG (g : Game) (delta : ℚ) (inp : InputState) : SnakeGame :=
  let sg := (g.afterInput delta inp).snake_game
  { sg with snake := sg.snake.advance }

/-- The move condition of the source (src/main.rs lines 67-68), phrased over the
pre-tick state: either input occurred and the cooldown has elapsed, or no
input occurred and the accumulated timer (after adding delta) reached the
base interval. -/
def moveCond (g : Game) (delta t : ℚ) (inp : InputState) : Prop :=
  (inp.any = true ∧ t - g.last_move_time ≥ MIN_MOVE_INTERVAL)
    ∨ (inp.any = false ∧ g.update_timer + delta ≥ BASE_UPDATE_INTERVAL)

instance (g : Game) (delta t : ℚ) (inp : InputState) : Decidable (moveCond g delta t inp) := by
  unfold moveCond
  infer_instance

/-- The direction `handle_input` forwards to `set_direction` for a given
keyboard state, following the else-if chain of the source (src/main.rs lines
43-55): Right and Left map to themselves, the Down key maps to Up and the
Up key maps to Down; `none` when no directional key is pressed. -/
def InputState.forwarded (i : InputState) : Option SnakeDirection :=
  if i.right then some .right
  else if i.left then some .left
  else if i.down then some .up
  else if i.up then some .down
  else none

/-- Characterization of `handle_input`: it returns the same game with the
heading overwritten by the forwarded direction (when any), and the flag
telling whether any directional key was pressed. -/
theorem handle_input_eq (g : Game) (inp : InputState) :
    g.handle_input inp =
      ({ g with snake_game := { g.snake_game with snake :=
          { g.snake_game.snake with direction :=
              (Option.getD inp.forwarded g.snake_game.snake.direction) } } }, inp.any) := by
  rcases inp with ⟨r, l, dn, u⟩
  cases r <;> cases l <;> cases dn <;> cases u <;> rfl

/-- The boolean move condition of the source equals the Prop-level `moveCond`. -/
theorem shouldMove_iff (g : Game) (delta t : ℚ) (inp : InputState) :
    (((inp.any && decide (t - g.last_move_time ≥ MIN_MOVE_INTERVAL))
      || (!inp.any && decide (g.update_timer + delta ≥ BASE_UPDATE_INTERVAL))) = true)
      ↔ moveCond g delta t inp := by
  unfold moveCond
  cases h : inp.any <;> simp [h]

/-- Translating a position by one cell always changes it. -/
theorem translate_ne (p : Pos) (d : SnakeDirection) : translate p d ≠ p := by
  intro h
  have hx := congrArg Pos.x h
  have hy := congrArg Pos.y h
  cases d <;> simp only [translate] at hx hy <;> omega

/-- An executed `advance` always changes the body of a nonempty snake. -/
theorem advance_body_ne (s : Snake) (hb : s.body ≠ []) :
    s.advance.body ≠ s.body := by
  rcases s with ⟨body, d, pg⟩
  rcases body with _ | ⟨p, rest⟩
  · exact absurd rfl hb
  · cases pg
    · intro he
      have h2 : translate p d :: (p :: rest).dropLast = p :: rest := he
      injection h2 with h1 _
      exact translate_ne p d h1
    · intro he
      have h2 : translate p d :: p :: rest = p :: rest := he
      have h3 := congrArg List.length h2
      simp at h3

/-- Everything `update` does after a non-terminal move, assembled from the
post-input state `gA` and the post-advance snake game `sgA`: consumption
check, conditional spawn, and the movement bookkeeping
(src/main.rs lines 78-97). -/
def postMove (gA : Game) (sgA : SnakeGame) (t : ℚ) (input_moved : Bool) (cell : Pos) : Game :=
  let q := sgA.check_entity_collision
  let g4 :=
    match q.1 with
    | some _ =>
        { gA with
            snake_game := { q.2 with snake := q.2.snake.grow },
            score := gA.score + 1 }
    | none => { gA with snake_game := q.2 }
  let g5 :=
    if g4.snake_game.entities.isEmpty then
      { g4 with snake_game := g4.snake_game.generate_entity cell }
    else g4
  { g5 with
      last_move_time := t,
      update_timer := if input_moved then 0 else g5.update_timer - BASE_UPDATE_INTERVAL }

/-- On a tick whose move condition fails, `update` only accumulates the
timer and applies the input handling, and reports continue. -/
theorem update_no_move (g : Game) (delta t : ℚ) (inp : InputState) (cell : Pos)
    (h : ¬ moveCond g delta t inp) :
    g.update delta t inp cell = (g.afterInput delta inp, true) := by
  unfold Game.update Game.afterInput
  simp only []
  rw [handle_input_eq]
  dsimp only
  rw [if_neg]
  intro hb
  exact h ((shouldMove_iff g delta t inp).mp hb)

/-- On a tick whose move condition holds and whose post-advance collision
check is terminal, `update` returns the advanced state with the game-over
flag, skipping consumption, spawning and bookkeeping. -/
theorem update_move_terminal (g : Game) (delta t : ℚ) (inp : InputState) (cell : Pos)
    (hm : moveCond g delta t inp)
    (hc : (g.advancedSG delta inp).check_collisions = true) :
    g.update delta t inp cell =
      ({ g.afterInput delta inp with snake_game := g.advancedSG delta inp }, false) := by
  unfold Game.advancedSG Game.afterInput at hc ⊢
  rw [handle_input_eq] at hc ⊢
  dsimp only at hc ⊢
  unfold Game.update
  simp only []
  rw [handle_input_eq]
  dsimp only
  rw [if_pos ((shouldMove_iff g delta t inp).mpr hm)]
  rw [if_pos hc]

/-- On a tick whose move condition holds and whose post-advance collision
check is not terminal, `update` performs the post-move pipeline and reports
continue. -/
theorem update_move_continue (g : Game) (delta t : ℚ) (inp : InputState) (cell : Pos)
    (hm : moveCond g delta t inp)
    (hc : (g.advancedSG delta inp).check_collisions = false) :
    g.update delta t inp cell =
      (postMove (g.afterInput delta inp) (g.advancedSG delta inp) t inp.any cell, true) := by
  unfold Game.advancedSG Game.afterInput at hc ⊢
  rw [handle_input_eq] at hc ⊢
  dsimp only at hc ⊢
  unfold Game.update postMove
  simp only []
  rw [handle_input_eq]
  dsimp only
  rw [if_pos ((shouldMove_iff g delta t inp).mpr hm)]
  rw [if_neg (by rw [hc]; exact Bool.false_ne_true)]

/-- No directional key pressed. -/
def noInput : InputState := ⟨false, false, false, false⟩

/-- Only the Down key pressed. -/
def inpDown : InputState := ⟨false, false, true, false⟩

/-- Only the Up key pressed. -/
def inpUp : InputState := ⟨false, false, false, true⟩

/-- Only the Right key pressed. -/
def inpRight : InputState := ⟨true, false, false, false⟩

/-- A mid-session state on a 5x5 grid: single-segment snake at (2,2) heading
right, no entities, timers at zero. -/
def gRun : Game :=
  { snake_game :=
      { columns := 5
        rows := 5
        snake := { body := [⟨2, 2⟩], direction := .right, pending_growth := false }
        entities := [] }
    update_timer := 0
    last_move_time := 0
    score := 0
    high_score := 0 }

/-- A session state one cell from the right wall with score 1: the next
timer-driven move sends the head out of bounds, ending the session. -/
def gWall : Game :=
  { snake_game :=
      { columns := 5
        rows := 5
        snake := { body := [⟨4, 2⟩], direction := .right, pending_growth := false }
        entities := [] }
    update_timer := 0
    last_move_time := 0
    score := 1
    high_score := 0 }

/-- A session state whose next move self-collides on a cell that also holds
an apple: the body loops so that advancing right from (1,1) lands the head
on the still-occupied segment (2,1), where an apple also sits. -/
def gLoop : Game :=
  { snake_game :=
      { columns := 5
        rows := 5
        snake :=
          { body := [⟨1, 1⟩, ⟨1, 2⟩, ⟨2, 2⟩, ⟨2, 1⟩, ⟨3, 1⟩]
            direction := .right
            pending_growth := false }
        entities := [⟨2, 1⟩] }
    update_timer := 0
    last_move_time := 0
    score := 0
    high_score := 0 }

/-- A session state about to consume an apple: head at (2,2) heading right,
apple at (3,2). -/
def gEat : Game :=
  { snake_game :=
      { columns := 5
        rows := 5
        snake := { body := [⟨2, 2⟩], direction := .right, pending_growth := false }
        entities := [⟨3, 2⟩] }
    update_timer := 0
    last_move_time := 0
    score := 0
    high_score := 0 }

/-- Closed form of the post-input state: only the accumulated timer and the
heading differ from the pre-tick state. -/
theorem afterInput_eq (g : Game) (delta : ℚ) (inp : InputState) :
    g.afterInput delta inp =
      { g with
          update_timer := g.update_timer + delta
          snake_game := { g.snake_game with snake :=
            { g.snake_game.snake with direction :=
                (Option.getD inp.forwarded g.snake_game.snake.direction) } } } := by
  unfold Game.afterInput
  rw [handle_input_eq]

/-- Closed form of the post-advance snake game. -/
theorem advancedSG_eq (g : Game) (delta : ℚ) (inp : InputState) :
    g.advancedSG delta inp =
      { g.snake_game with snake :=
          ({ g.snake_game.snake with direction :=
              (Option.getD inp.forwarded g.snake_game.snake.direction) }).advance } := by
  unfold Game.advancedSG Game.afterInput
  rw [handle_input_eq]

/-- When no directional key is pressed, no direction is forwarded. -/
theorem forwarded_eq_none (inp : InputState) (h : inp.any = false) :
    inp.forwarded = none := by
  rcases inp with ⟨r, l, dn, u⟩
  simp only [InputState.any, Bool.or_eq_false_iff] at h
  obtain ⟨⟨⟨hr, hl⟩, hd⟩, hu⟩ := h
  subst hr hl hd hu
  rfl

/-- When a direction is forwarded, some directional key was pressed. -/
theorem any_of_forwarded (inp : InputState) (d : SnakeDirection)
    (h : inp.forwarded = some d) : inp.any = true := by
  rcases inp with ⟨r, l, dn, u⟩
  cases r <;> cases l <;> cases dn <;> cases u <;> first | rfl | exact absurd h (by simp [InputState.forwarded])

/-- Advancing always clears the pending-growth flag. -/
theorem advance_pending (s : Snake) : s.advance.pending_growth = false := by
  unfold Snake.advance
  by_cases h : s.pending_growth <;> simp [h]

/-- The head of an advanced snake is the old head translated by the heading. -/
theorem advance_head (s : Snake) :
    s.advance.body.head? = some (translate s.headPos s.direction) := by
  unfold Snake.advance
  by_cases h : s.pending_growth <;> simp [h]

/-- Whenever the move condition holds, the final body of the tick is the body of
the advanced post-input snake (the later stages never touch the body). -/
theorem update_body_of_move (g : Game) (delta t : ℚ) (inp : InputState) (cell : Pos)
    (hm : moveCond g delta t inp) :
    (g.update delta t inp cell).1.snake_game.snake.body
      = ((g.afterInput delta inp).snake_game.snake.advance).body := by
  by_cases hc : (g.advancedSG delta inp).check_collisions
  · rw [update_move_terminal g delta t inp cell hm hc]
    rfl
  · rw [update_move_continue g delta t inp cell hm (Bool.not_eq_true _ ▸ hc)]
    unfold postMove SnakeGame.check_entity_collision SnakeGame.generate_entity Game.advancedSG
    dsimp only
    by_cases h : (g.afterInput delta inp).snake_game.snake.advance.headPos
        ∈ (g.afterInput delta inp).snake_game.entities <;>
      simp only [h, if_pos, if_neg, not_false_iff] <;> split <;> rfl

/-- Closed form of the post-move pipeline when the head landed on a live
entity: the snake is told to grow, the score increments, the hit entity is
erased, a fresh apple is spawned iff no entity remains, and the movement
bookkeeping runs. -/
theorem postMove_of_hit (gA : Game) (sgA : SnakeGame) (t : ℚ) (im : Bool) (cell : Pos)
    (h : sgA.snake.headPos ∈ sgA.entities) :
    postMove gA sgA t im cell =
      { gA with
          snake_game :=
            { sgA with
                snake := sgA.snake.grow
                entities :=
                  if (sgA.entities.erase sgA.snake.headPos).isEmpty then [cell]
                  else sgA.entities.erase sgA.snake.headPos }
          score := gA.score + 1
          last_move_time := t
          update_timer := if im then 0 else gA.update_timer - BASE_UPDATE_INTERVAL } := by
  unfold postMove SnakeGame.check_entity_collision SnakeGame.generate_entity
  rw [if_pos h]
  dsimp only
  by_cases he : (sgA.entities.erase sgA.snake.headPos).isEmpty = true
  · rw [if_pos he, if_pos he]
    have hnil : sgA.entities.erase sgA.snake.headPos = [] := by
      simpa using he
    rw [hnil]
    rfl
  · rw [if_neg he, if_neg he]

/-- Closed form of the post-move pipeline when the head missed every live
entity: score and snake are untouched, a fresh apple is spawned iff the
entity collection was empty, and the movement bookkeeping runs. -/
theorem postMove_of_miss (gA : Game) (sgA : SnakeGame) (t : ℚ) (im : Bool) (cell : Pos)
    (h : sgA.snake.headPos ∉ sgA.entities) :
    postMove gA sgA t im cell =
      { gA with
          snake_game :=
            { sgA with
                entities := if sgA.entities.isEmpty then [cell] else sgA.entities }
          last_move_time := t
          update_timer := if im then 0 else gA.update_timer - BASE_UPDATE_INTERVAL } := by
  unfold postMove SnakeGame.check_entity_collision SnakeGame.generate_entity
  rw [if_neg h]
  dsimp only
  by_cases he : sgA.entities.isEmpty = true
  · rw [if_pos he, if_pos he]
    have hnil : sgA.entities = [] := by simpa using he
    rw [hnil]
    rfl
  · rw [if_neg he, if_neg he]

/-- The timer-driven move condition holds at `gRun` for a 0.6-second frame. -/
theorem gRun_moveCond : moveCond gRun (3/5) 1 noInput :=
  Or.inr ⟨rfl, by norm_num [gRun, BASE_UPDATE_INTERVAL]⟩

/-- The move at `gRun` is not terminal: the head lands in bounds off-body. -/
theorem gRun_no_collision : (gRun.advancedSG (3/5) noInput).check_collisions = false := by
  decide

/-- The timer-driven move condition holds at `gWall` for a 0.6-second frame. -/
theorem gWall_moveCond : moveCond gWall (3/5) 1 noInput :=
  Or.inr ⟨rfl, by norm_num [gWall, BASE_UPDATE_INTERVAL]⟩

/-- The move at `gWall` is terminal: the head exits the grid on the right. -/
theorem gWall_collision : (gWall.advancedSG (3/5) noInput).check_collisions = true := by
  decide

/-- The timer-driven move condition holds at `gLoop` for a 0.6-second frame. -/
theorem gLoop_moveCond : moveCond gLoop (3/5) 1 noInput :=
  Or.inr ⟨rfl, by norm_num [gLoop, BASE_UPDATE_INTERVAL]⟩

/-- The move at `gLoop` is terminal: the head re-enters the body at (2,1). -/
theorem gLoop_collision : (gLoop.advancedSG (3/5) noInput).check_collisions = true := by
  decide

/-- The timer-driven move condition holds at `gEat` for a 0.6-second frame. -/
theorem gEat_moveCond : moveCond gEat (3/5) 1 noInput :=
  Or.inr ⟨rfl, by norm_num [gEat, BASE_UPDATE_INTERVAL]⟩

/-- The move at `gEat` is not terminal. -/
theorem gEat_no_collision : (gEat.advancedSG (3/5) noInput).check_collisions = false := by
  decide

/-- C2: for every tick of `Game::update`, a move executes (observable as the
body of the snake changing, which an executed `advance` always causes and which
nothing else causes) if and only if either a directional key was newly
pressed this tick and at least MIN_MOVE_INTERVAL seconds have elapsed since
the last move, or no directional key was pressed this tick and the
accumulated update_timer (after adding delta) has reached
BASE_UPDATE_INTERVAL; the two cadences are mutually exclusive within a tick
and input takes priority, the timer cadence being gated on the absence of
input. -/
theorem C2_move_cadence (g : Game) (delta t : ℚ) (inp : InputState) (cell : Pos)
    (hb : g.snake_game.snake.body ≠ []) :
    ((g.update delta t inp cell).1.snake_game.snake.body ≠ g.snake_game.snake.body)
      ↔ moveCond g delta t inp := by
  constructor
  · intro hne
    by_contra hm
    rw [update_no_move g delta t inp cell hm] at hne
    apply hne
    rw [afterInput_eq]
  · intro hm
    rw [update_body_of_move g delta t inp cell hm]
    have hbody : (g.afterInput delta inp).snake_game.snake.body = g.snake_game.snake.body := by
      rw [afterInput_eq]
    rw [← hbody]
    exact advance_body_ne _ (by rw [hbody]; exact hb)

/-- Witness for C2 at a concrete timer-driven tick. -/
theorem C2_move_cadence_witness :
    ((gRun.update (3/5) 1 noInput ⟨0, 0⟩).1.snake_game.snake.body
        ≠ gRun.snake_game.snake.body)
      ↔ moveCond gRun (3/5) 1 noInput :=
  C2_move_cadence gRun (3/5) 1 noInput ⟨0, 0⟩ (by decide)

/-- C6: when a move executes and the collision check on the advanced state
reports terminal, the tick reports game over and performs no further
per-tick work: the score is unchanged, the entity collection is unchanged
(nothing consumed, nothing spawned), and the snake is exactly the advanced
snake (in particular it was not told to grow). -/
theorem C6_terminal_move (g : Game) (delta t : ℚ) (inp : InputState) (cell : Pos)
    (hm : moveCond g delta t inp)
    (hc : (g.advancedSG delta inp).check_collisions = true) :
    (g.update delta t inp cell).2 = false
      ∧ (g.update delta t inp cell).1.score = g.score
      ∧ (g.update delta t inp cell).1.snake_game.entities = g.snake_game.entities
      ∧ (g.update delta t inp cell).1.snake_game.snake
          = ((g.afterInput delta inp).snake_game.snake).advance := by
  rw [update_move_terminal g delta t inp cell hm hc]
  refine ⟨rfl, ?_, ?_, ?_⟩
  · rw [afterInput_eq]
  · rw [advancedSG_eq]
  · rw [advancedSG_eq, afterInput_eq]

/-- Witness for C6 at a concrete wall collision. -/
theorem C6_terminal_move_witness :
    (gWall.update (3/5) 1 noInput ⟨0, 0⟩).2 = false
      ∧ (gWall.update (3/5) 1 noInput ⟨0, 0⟩).1.score = gWall.score
      ∧ (gWall.update (3/5) 1 noInput ⟨0, 0⟩).1.snake_game.entities
          = gWall.snake_game.entities
      ∧ (gWall.update (3/5) 1 noInput ⟨0, 0⟩).1.snake_game.snake
          = ((gWall.afterInput (3/5) noInput).snake_game.snake).advance :=
  C6_terminal_move gWall (3/5) 1 noInput ⟨0, 0⟩ gWall_moveCond gWall_collision

/-- C9: on a tick with no directional input whose accumulated timer stays
below BASE_UPDATE_INTERVAL, the resulting state is the old state with only
the timer accumulated — body, score, entities, heading and last_move_time
are all unchanged — and the tick reports continue. -/
theorem C9_idle_tick (g : Game) (delta t : ℚ) (inp : InputState) (cell : Pos)
    (hinp : inp.any = false)
    (htimer : g.update_timer + delta < BASE_UPDATE_INTERVAL) :
    g.update delta t inp cell
      = ({ g with update_timer := g.update_timer + delta }, true) := by
  have hm : ¬ moveCond g delta t inp := by
    rintro (⟨h1, _⟩ | ⟨_, h2⟩)
    · rw [hinp] at h1
      exact Bool.false_ne_true h1
    · exact absurd h2 (not_le.mpr htimer)
  rw [update_no_move g delta t inp cell hm, afterInput_eq, forwarded_eq_none inp hinp]
  rfl

/-- Witness for C9 at a concrete idle tick. -/
theorem C9_idle_tick_witness :
    gRun.update (1/10) 7 noInput ⟨0, 0⟩
      = ({ gRun with update_timer := gRun.update_timer + 1/10 }, true) :=
  C9_idle_tick gRun (1/10) 7 noInput ⟨0, 0⟩ rfl (by norm_num [gRun, BASE_UPDATE_INTERVAL])

/-- C5 counterexample: at `gWall` a move executes (the body changes) with
wall-clock time 1, yet the tick returns with `last_move_time` still 0,
because the game-over early return skips the bookkeeping — refuting the
claim that after every executed move, game over included, `last_move_time`
is set to the current time. -/
theorem C5_counterexample :
    (gWall.update (3/5) 1 noInput ⟨0, 0⟩).1.snake_game.snake.body
        ≠ gWall.snake_game.snake.body
      ∧ (gWall.update (3/5) 1 noInput ⟨0, 0⟩).1.last_move_time = 0
      ∧ (0 : ℚ) ≠ 1 := by
  rw [update_move_terminal gWall (3/5) 1 noInput ⟨0, 0⟩ gWall_moveCond gWall_collision]
  refine ⟨?_, rfl, by norm_num⟩
  rw [advancedSG_eq]
  decide

/-- C5 (amended): after every executed move that is not terminal, the
update_timer is reset to 0 when the move was input-triggered and decremented
by BASE_UPDATE_INTERVAL when timer-triggered, and last_move_time is set to
the current wall-clock time; a terminal move returns early and skips this
bookkeeping. -/
theorem C5_bookkeeping (g : Game) (delta t : ℚ) (inp : InputState) (cell : Pos)
    (hm : moveCond g delta t inp)
    (hc : (g.advancedSG delta inp).check_collisions = false) :
    (g.update delta t inp cell).1.last_move_time = t
      ∧ (inp.any = true → (g.update delta t inp cell).1.update_timer = 0)
      ∧ (inp.any = false →
          (g.update delta t inp cell).1.update_timer
            = g.update_timer + delta - BASE_UPDATE_INTERVAL) := by
  rw [update_move_continue g delta t inp cell hm hc]
  by_cases hhit : (g.advancedSG delta inp).snake.headPos ∈ (g.advancedSG delta inp).entities
  · rw [postMove_of_hit _ _ _ _ _ hhit, afterInput_eq]
    exact ⟨rfl, fun h => by rw [h]; rfl, fun h => by rw [h]; rfl⟩
  · rw [postMove_of_miss _ _ _ _ _ hhit, afterInput_eq]
    exact ⟨rfl, fun h => by rw [h]; rfl, fun h => by rw [h]; rfl⟩

/-- Witness for the amended C5 at a concrete timer-driven non-terminal move. -/
theorem C5_bookkeeping_witness :
    (gRun.update (3/5) 1 noInput ⟨0, 0⟩).1.last_move_time = 1
      ∧ (noInput.any = true → (gRun.update (3/5) 1 noInput ⟨0, 0⟩).1.update_timer = 0)
      ∧ (noInput.any = false →
          (gRun.update (3/5) 1 noInput ⟨0, 0⟩).1.update_timer
            = gRun.update_timer + 3/5 - BASE_UPDATE_INTERVAL) :=
  C5_bookkeeping gRun (3/5) 1 noInput ⟨0, 0⟩ gRun_moveCond gRun_no_collision

/-- C7 counterexample: at `gLoop` the executed move lands the head on a live
entity position, yet the move is terminal (self collision), so the score
does not increase, the snake is not told to grow and the entity is not
removed — refuting the claimed equivalence between landing on a live entity
and scoring/growing. -/
theorem C7_counterexample :
    (gLoop.advancedSG (3/5) noInput).snake.headPos
        ∈ (gLoop.advancedSG (3/5) noInput).entities
      ∧ (gLoop.update (3/5) 1 noInput ⟨0, 0⟩).1.snake_game.snake.body
          ≠ gLoop.snake_game.snake.body
      ∧ (gLoop.update (3/5) 1 noInput ⟨0, 0⟩).1.score = gLoop.score
      ∧ (gLoop.update (3/5) 1 noInput ⟨0, 0⟩).1.snake_game.snake.pending_growth = false
      ∧ (gLoop.update (3/5) 1 noInput ⟨0, 0⟩).1.snake_game.entities
          = gLoop.snake_game.entities := by
  rw [update_move_terminal gLoop (3/5) 1 noInput ⟨0, 0⟩ gLoop_moveCond gLoop_collision]
  refine ⟨?_, ?_, rfl, ?_, ?_⟩
  · rw [advancedSG_eq]
    decide
  · rw [advancedSG_eq]
    decide
  · rw [advancedSG_eq]
    decide
  · rw [advancedSG_eq]

/-- C7 (amended): in a tick whose move executes and is not terminal, the
score increases by exactly 1, the snake is told to grow (pending-growth flag
set) and the hit entity is erased (followed by a respawn iff nothing
remains) if the head lands on the position of a live entity; otherwise the score
is unchanged and the snake is not told to grow.  (On a terminal move the
consumption check never runs, so the head can land on a live entity with no
score or growth effect.) -/
theorem C7_consume_scoring (g : Game) (delta t : ℚ) (inp : InputState) (cell : Pos)
    (hm : moveCond g delta t inp)
    (hc : (g.advancedSG delta inp).check_collisions = false) :
    ((g.advancedSG delta inp).snake.headPos ∈ (g.advancedSG delta inp).entities →
        (g.update delta t inp cell).1.score = g.score + 1
          ∧ (g.update delta t inp cell).1.snake_game.snake.pending_growth = true
          ∧ (g.update delta t inp cell).1.snake_game.entities
              = (if ((g.advancedSG delta inp).entities.erase
                      (g.advancedSG delta inp).snake.headPos).isEmpty then [cell]
                 else (g.advancedSG delta inp).entities.erase
                        (g.advancedSG delta inp).snake.headPos))
      ∧ ((g.advancedSG delta inp).snake.headPos ∉ (g.advancedSG delta inp).entities →
          (g.update delta t inp cell).1.score = g.score
            ∧ (g.update delta t inp cell).1.snake_game.snake.pending_growth = false) := by
  rw [update_move_continue g delta t inp cell hm hc]
  constructor
  · intro hhit
    rw [postMove_of_hit _ _ _ _ _ hhit]
    refine ⟨?_, rfl, rfl⟩
    rw [afterInput_eq]
  · intro hmiss
    rw [postMove_of_miss _ _ _ _ _ hmiss]
    refine ⟨?_, ?_⟩
    · rw [afterInput_eq]
    · rw [advancedSG_eq]
      exact advance_pending _

/-- Witness for the amended C7 at a concrete apple consumption. -/
theorem C7_consume_scoring_witness :
    ((gEat.advancedSG (3/5) noInput).snake.headPos ∈ (gEat.advancedSG (3/5) noInput).entities →
        (gEat.update (3/5) 1 noInput ⟨0, 0⟩).1.score = gEat.score + 1
          ∧ (gEat.update (3/5) 1 noInput ⟨0, 0⟩).1.snake_game.snake.pending_growth = true
          ∧ (gEat.update (3/5) 1 noInput ⟨0, 0⟩).1.snake_game.entities
              = (if ((gEat.advancedSG (3/5) noInput).entities.erase
                      (gEat.advancedSG (3/5) noInput).snake.headPos).isEmpty then [(⟨0, 0⟩ : Pos)]
                 else (gEat.advancedSG (3/5) noInput).entities.erase
                        (gEat.advancedSG (3/5) noInput).snake.headPos))
      ∧ ((gEat.advancedSG (3/5) noInput).snake.headPos ∉ (gEat.advancedSG (3/5) noInput).entities →
          (gEat.update (3/5) 1 noInput ⟨0, 0⟩).1.score = gEat.score
            ∧ (gEat.update (3/5) 1 noInput ⟨0, 0⟩).1.snake_game.snake.pending_growth = false) :=
  C7_consume_scoring gEat (3/5) 1 noInput ⟨0, 0⟩ gEat_moveCond gEat_no_collision

/-- C8: after every executed non-terminal move, if the live entity
collection (after the consumption check) is empty then exactly one new
Apple is spawned at the cell chosen by the spawner, so the tick ends with
exactly one live entity. -/
theorem C8_respawn (g : Game) (delta t : ℚ) (inp : InputState) (cell : Pos)
    (hm : moveCond g delta t inp)
    (hc : (g.advancedSG delta inp).check_collisions = false)
    (hempty : ((g.advancedSG delta inp).check_entity_collision).2.entities = []) :
    (g.update delta t inp cell).1.snake_game.entities = [cell]
      ∧ (g.update delta t inp cell).1.snake_game.entities.length = 1 := by
  rw [update_move_continue g delta t inp cell hm hc]
  by_cases hhit : (g.advancedSG delta inp).snake.headPos ∈ (g.advancedSG delta inp).entities
  · rw [postMove_of_hit _ _ _ _ _ hhit]
    have h2 : (g.advancedSG delta inp).entities.erase (g.advancedSG delta inp).snake.headPos
        = [] := by
      unfold SnakeGame.check_entity_collision at hempty
      rw [if_pos hhit] at hempty
      exact hempty
    rw [h2]
    exact ⟨rfl, rfl⟩
  · rw [postMove_of_miss _ _ _ _ _ hhit]
    have h2 : (g.advancedSG delta inp).entities = [] := by
      unfold SnakeGame.check_entity_collision at hempty
      rw [if_neg hhit] at hempty
      exact hempty
    rw [h2]
    exact ⟨rfl, rfl⟩

/-- Witness for C8 at a concrete move with an empty entity collection. -/
theorem C8_respawn_witness :
    (gRun.update (3/5) 1 noInput ⟨0, 0⟩).1.snake_game.entities = [(⟨0, 0⟩ : Pos)]
      ∧ (gRun.update (3/5) 1 noInput ⟨0, 0⟩).1.snake_game.entities.length = 1 :=
  C8_respawn gRun (3/5) 1 noInput ⟨0, 0⟩ gRun_moveCond gRun_no_collision (by decide)

/-- C1 (code bug): an end-to-end game-over transition at `gWall` (session
score 1, high score 0).  The tick reports game over with score 1; the main
assignment in the loop itself (line 152) would set the high score to
max(0, 1) = 1; yet the state after the reset in the loop reads high score 0,
because the freshly constructed `Game` (whose constructor zeroes
`high_score`) overwrites the game that had just been updated.  The updated
high score is therefore not readable after the session is replaced. -/
theorem C1_high_score_not_persisted :
    (gWall.update (3/5) 1 noInput ⟨0, 0⟩).2 = false
      ∧ (gWall.update (3/5) 1 noInput ⟨0, 0⟩).1.score = 1
      ∧ (highScoreCommit (gWall.update (3/5) 1 noInput ⟨0, 0⟩).1).high_score
          = Nat.max gWall.high_score 1
      ∧ Nat.max gWall.high_score 1 = 1
      ∧ (mainStep 5 5 gWall (3/5) 1 noInput ⟨0, 0⟩).high_score = 0 := by
  have ht := update_move_terminal gWall (3/5) 1 noInput ⟨0, 0⟩ gWall_moveCond gWall_collision
  refine ⟨?_, ?_, ?_, rfl, ?_⟩
  · rw [ht]
  · rw [ht, afterInput_eq]
    rfl
  · rw [ht, afterInput_eq]
    rfl
  · unfold mainStep
    rw [ht]
    rfl

/-- C3 (code bug): the state after the game-over reset at `gWall` has score
0, zeroed timer state, the initial snake and unchanged grid dimensions — but
its high score is 0, not max(old high score, ending score) = 1, because the
fresh `Game::new` overwrites the just-committed high score. -/
theorem C3_reset_discards_high_score :
    (mainStep 5 5 gWall (3/5) 1 noInput ⟨0, 0⟩).score = 0
      ∧ (mainStep 5 5 gWall (3/5) 1 noInput ⟨0, 0⟩).update_timer = 0
      ∧ (mainStep 5 5 gWall (3/5) 1 noInput ⟨0, 0⟩).last_move_time = 0
      ∧ (mainStep 5 5 gWall (3/5) 1 noInput ⟨0, 0⟩).snake_game.snake = initialSnake 5 5
      ∧ (mainStep 5 5 gWall (3/5) 1 noInput ⟨0, 0⟩).snake_game.columns
          = gWall.snake_game.columns
      ∧ (mainStep 5 5 gWall (3/5) 1 noInput ⟨0, 0⟩).snake_game.rows
          = gWall.snake_game.rows
      ∧ (mainStep 5 5 gWall (3/5) 1 noInput ⟨0, 0⟩).snake_game.entities = []
      ∧ (mainStep 5 5 gWall (3/5) 1 noInput ⟨0, 0⟩).high_score = 0
      ∧ Nat.max gWall.high_score (gWall.update (3/5) 1 noInput ⟨0, 0⟩).1.score = 1 := by
  have ht := update_move_terminal gWall (3/5) 1 noInput ⟨0, 0⟩ gWall_moveCond gWall_collision
  have hms : mainStep 5 5 gWall (3/5) 1 noInput ⟨0, 0⟩ = Game.new 5 5 := by
    unfold mainStep
    rw [ht]
    rfl
  rw [hms, ht, afterInput_eq]
  exact ⟨rfl, rfl, rfl, rfl, rfl, rfl, rfl, rfl, rfl⟩

/-- C4 counterexample: with only the Down key newly pressed, `handle_input`
forwards `SnakeDirection::Up`, not the pressed direction Down — refuting the
claim that the forwarded direction always equals the pressed one. -/
theorem C4_counterexample :
    inpDown.down = true
      ∧ (gRun.handle_input inpDown).1.snake_game.snake.direction = SnakeDirection.up
      ∧ (gRun.handle_input inpDown).1.snake_game.snake.direction ≠ SnakeDirection.down :=
  ⟨rfl, rfl, by decide⟩

/-- C4 (amended): the direction forwarded to `set_direction` is determined
by the else-if chain over Right, Left, Down, Up in that priority order;
Right and Left forward themselves, while the Down key forwards Up and the
Up key forwards Down (vertical axis inverted); with no key pressed the
heading is unchanged and no movement is reported. -/
theorem C4_forwarding (g : Game) (inp : InputState) :
    ((g.handle_input inp).1.snake_game.snake.direction
        = Option.getD inp.forwarded g.snake_game.snake.direction)
      ∧ (g.handle_input inp).2 = inp.any
      ∧ (inp.right = true → inp.forwarded = some SnakeDirection.right)
      ∧ (inp.right = false → inp.left = true → inp.forwarded = some SnakeDirection.left)
      ∧ (inp.right = false → inp.left = false → inp.down = true →
          inp.forwarded = some SnakeDirection.up)
      ∧ (inp.right = false → inp.left = false → inp.down = false → inp.up = true →
          inp.forwarded = some SnakeDirection.down)
      ∧ (inp.any = false → inp.forwarded = none) := by
  refine ⟨?_, ?_, ?_, ?_, ?_, ?_, forwarded_eq_none inp⟩
  · rw [handle_input_eq]
  · rw [handle_input_eq]
  · intro h1
    unfold InputState.forwarded
    rw [if_pos h1]
  · intro h1 h2
    unfold InputState.forwarded
    rw [if_neg (by rw [h1]; exact Bool.false_ne_true), if_pos h2]
  · intro h1 h2 h3
    unfold InputState.forwarded
    rw [if_neg (by rw [h1]; exact Bool.false_ne_true),
      if_neg (by rw [h2]; exact Bool.false_ne_true), if_pos h3]
  · intro h1 h2 h3 h4
    unfold InputState.forwarded
    rw [if_neg (by rw [h1]; exact Bool.false_ne_true),
      if_neg (by rw [h2]; exact Bool.false_ne_true),
      if_neg (by rw [h3]; exact Bool.false_ne_true), if_pos h4]

/-- Witness for the amended C4 at a concrete Down press. -/
theorem C4_forwarding_witness :
    ((gRun.handle_input inpDown).1.snake_game.snake.direction
        = Option.getD inpDown.forwarded gRun.snake_game.snake.direction)
      ∧ (gRun.handle_input inpDown).2 = inpDown.any
      ∧ (inpDown.right = true → inpDown.forwarded = some SnakeDirection.right)
      ∧ (inpDown.right = false → inpDown.left = true →
          inpDown.forwarded = some SnakeDirection.left)
      ∧ (inpDown.right = false → inpDown.left = false → inpDown.down = true →
          inpDown.forwarded = some SnakeDirection.up)
      ∧ (inpDown.right = false → inpDown.left = false → inpDown.down = false →
          inpDown.up = true → inpDown.forwarded = some SnakeDirection.down)
      ∧ (inpDown.any = false → inpDown.forwarded = none) :=
  C4_forwarding gRun inpDown

/-- C10 counterexample: with the Down key newly pressed during the input
cooldown (current time 0.05, last move at 0, MIN_MOVE_INTERVAL 0.1), the
tick executes no move, yet the heading becomes Up — not the pressed
direction Down — refuting the claim that the heading is changed to the
pressed direction. -/
theorem C10_counterexample :
    ((1/20 : ℚ) - gRun.last_move_time < MIN_MOVE_INTERVAL)
      ∧ inpDown.down = true
      ∧ (gRun.update (1/100) (1/20) inpDown ⟨0, 0⟩).1.snake_game.snake.direction
          = SnakeDirection.up
      ∧ (gRun.update (1/100) (1/20) inpDown ⟨0, 0⟩).1.snake_game.snake.direction
          ≠ SnakeDirection.down := by
  have hm : ¬ moveCond gRun (1/100) (1/20) inpDown := by
    rintro (⟨_, hge⟩ | ⟨hany, _⟩)
    · revert hge
      norm_num [gRun, MIN_MOVE_INTERVAL]
    · exact absurd hany (by decide)
  have hu := update_no_move gRun (1/100) (1/20) inpDown ⟨0, 0⟩ hm
  refine ⟨by norm_num [gRun, MIN_MOVE_INTERVAL], rfl, ?_, ?_⟩
  · rw [hu, afterInput_eq]
    rfl
  · rw [hu, afterInput_eq]
    decide

/-- C10 (amended): on a tick where a directional key is newly pressed but
the move is gated off by the input cooldown, the snake heading is still
changed — to the direction `handle_input` forwards (the pressed one for
Left/Right, the vertical opposite for Up/Down) — while body, score,
entities and last_move_time are unchanged, only the timer accumulates, and
the tick reports continue; the new heading then governs the next executed
move (its head is the old head translated along the forwarded direction). -/
theorem C10_gated_input (g : Game) (delta t : ℚ) (inp : InputState) (cell : Pos)
    (d : SnakeDirection)
    (hf : inp.forwarded = some d)
    (hgate : t - g.last_move_time < MIN_MOVE_INTERVAL) :
    g.update delta t inp cell
        = ({ g with
              update_timer := g.update_timer + delta
              snake_game := { g.snake_game with snake :=
                { g.snake_game.snake with direction := d } } }, true)
      ∧ (∀ (delta2 t2 : ℚ) (cell2 : Pos),
          moveCond (g.update delta t inp cell).1 delta2 t2 noInput →
            (((g.update delta t inp cell).1.update delta2 t2 noInput cell2).1.snake_game.snake.body.head?
              = some (translate g.snake_game.snake.headPos d))) := by
  have hany : inp.any = true := any_of_forwarded inp d hf
  have hm : ¬ moveCond g delta t inp := by
    rintro (⟨_, hge⟩ | ⟨hfalse, _⟩)
    · exact absurd hge (not_le.mpr hgate)
    · simp [hany] at hfalse
  have hu := update_no_move g delta t inp cell hm
  have g1eq : (g.update delta t inp cell).1
      = { g with
            update_timer := g.update_timer + delta
            snake_game := { g.snake_game with snake :=
              { g.snake_game.snake with direction := d } } } := by
    rw [hu, afterInput_eq, hf]
    rfl
  constructor
  · rw [hu, afterInput_eq, hf]
    rfl
  · intro delta2 t2 cell2 hm2
    rw [update_body_of_move _ delta2 t2 noInput cell2 hm2, afterInput_eq,
      forwarded_eq_none noInput rfl, g1eq, advance_head]
    rfl

/-- Witness for the amended C10 at a concrete gated Down press. -/
theorem C10_gated_input_witness :
    gRun.update (1/100) (1/20) inpDown ⟨0, 0⟩
        = ({ gRun with
              update_timer := gRun.update_timer + 1/100
              snake_game := { gRun.snake_game with snake :=
                { gRun.snake_game.snake with direction := SnakeDirection.up } } }, true)
      ∧ (∀ (delta2 t2 : ℚ) (cell2 : Pos),
          moveCond (gRun.update (1/100) (1/20) inpDown ⟨0, 0⟩).1 delta2 t2 noInput →
            (((gRun.update (1/100) (1/20) inpDown ⟨0, 0⟩).1.update delta2 t2 noInput cell2).1.snake_game.snake.body.head?
              = some (translate gRun.snake_game.snake.headPos SnakeDirection.up))) :=
  C10_gated_input gRun (1/100) (1/20) inpDown ⟨0, 0⟩ SnakeDirection.up rfl
    (by norm_num [gRun, MIN_MOVE_INTERVAL])

end Snake4
